import Mathlib

/-!
Verification development for the RVO2 dissertation-experiment driver
(src/examples/DissExp1_Simulation.cc).

The C++ example file is embedded shallowly over the rationals.  The RVO2
collision-avoidance library itself (RVO::RVOSimulator) is an external
collaborator whose sources are not part of the example file; it is modelled
from the specification (spec sections 3, 4.3 and 6), with the jointly
resolved avoidance velocities abstracted by a parameter.  Floating point
arithmetic is modelled exactly over ℚ; the transcendental primitives
(std sin, std sqrt, M_PI_2) are abstracted as parameters since no claim
depends on their values.
-/

set_option maxRecDepth 100000

namespace RVOSim

/-- 2D vector, standing in for RVO Vector2 (a pair of floats in the C++
source; the arithmetic is modelled exactly over ℚ). -/
abbrev Vec2 : Type := ℚ × ℚ

/-- Componentwise division of a vector by a scalar (RVO Vector2 division
operator, used in calculatePreferredVelocity). -/
def vdiv (v : Vec2) (s : ℚ) : Vec2 := (v.1 / s, v.2 / s)

/-- Componentwise multiplication of a vector by a scalar (RVO Vector2
scalar-multiplication operator). -/
def vscale (v : Vec2) (s : ℚ) : Vec2 := (v.1 * s, v.2 * s)

/-- TIME_STEP = 1.0f / 90.0f. -/
def TIME_STEP : ℚ := 1 / 90

/-- MAX_SPEED = 2.0f, the simulation-wide default maximum speed. -/
def MAX_SPEED : ℚ := 2

/-- MIN_X = 10.0f. -/
def MIN_X : ℚ := 10

/-- MIN_Y = 10.0f. -/
def MIN_Y : ℚ := 10

/-- MAX_X = 100.0f. -/
def MAX_X : ℚ := 100

/-- MAX_Y = 100.0f. -/
def MAX_Y : ℚ := 100

/-- Width of the C++ size_t type: vector sizes live in arithmetic modulo
2 to the 64. -/
def U64 : Nat := 2 ^ 64

/-- struct AgentTrajectory: per-tick positions, speeds and headings. -/
structure AgentTrajectory where
  positions : List Vec2
  speeds : List ℚ
  headings : List ℚ
deriving DecidableEq

/-- The C++ code applies std sin and std sqrt to floats and uses the
constant M_PI_2.  These transcendental primitives have no exact rational
counterpart, so the embedding takes them as parameters; no claim below
depends on their values. -/
structure FloatPrims where
  sinf : ℚ → ℚ
  sqrtf : ℚ → ℚ
  pi2 : ℚ

/-- Modelled from the spec: one agent owned by the AvoidanceOracle
(RVO RVOSimulator, whose sources are outside the example file).  Spec
section 6: the oracle owns each agent's position, velocity, preferred
velocity and maximum speed. -/
structure OracleAgent where
  position : Vec2
  velocity : Vec2
  prefVelocity : Vec2
  maxSpeed : ℚ
deriving DecidableEq

/-- Modelled from the spec: the AvoidanceOracle state.  Only the fields the
driver observes are modelled: the fixed time step, the configured default
maximum speed, and the registered agents (handles are list indices, dense
and assigned in call order starting at 0, as the spec documents). -/
structure OracleState where
  timeStep : ℚ
  defaultMaxSpeed : ℚ
  agents : List OracleAgent
deriving DecidableEq

/-- Modelled from the spec: registerAgent(initialPosition) returns the next
dense handle and appends an agent carrying the configured defaults, with
zero initial velocity and zero initial preferred velocity. -/
def addAgent (o : OracleState) (pos : Vec2) : Nat × OracleState :=
  (o.agents.length,
   { o with agents := o.agents ++
      [{ position := pos, velocity := (0, 0), prefVelocity := (0, 0),
         maxSpeed := o.defaultMaxSpeed }] })

/-- Apply a function to the agent stored at one index, leaving every other
index unchanged (out of range: no change). -/
def modifyAgents (f : OracleAgent → OracleAgent) : Nat → List OracleAgent → List OracleAgent
  | _, [] => []
  | 0, a :: rest => f a :: rest
  | n + 1, a :: rest => a :: modifyAgents f n rest

/-- Modelled from the spec: setPreferredVelocity(handle, velocity).  A
handle outside the registered range is undefined behaviour in the real
library; the model leaves the state unchanged there, and the theorems below
keep handles in range. -/
def setAgentPrefVelocity (o : OracleState) (h : Nat) (v : Vec2) : OracleState :=
  { o with agents := modifyAgents (fun a => { a with prefVelocity := v }) h o.agents }

/-- Modelled from the spec: setMaxSpeed(handle, value), used to pin goal
agents to zero speed. -/
def setAgentMaxSpeed (o : OracleState) (h : Nat) (s : ℚ) : OracleState :=
  { o with agents := modifyAgents (fun a => { a with maxSpeed := s }) h o.agents }

/-- An avoidance resolver: the opaque joint collision-avoidance computation
of the oracle, giving each agent's realized velocity for one step as a
function of the pre-step oracle state and the agent handle. -/
abbrev Resolver : Type := OracleState → Nat → Vec2

/-- Modelled from the spec: the effect of advance() on one agent.  The
agent adopts its jointly resolved velocity and moves by one time step,
except that an agent whose maximum speed is zero never moves (spec: goal
agents have zero maximum speed so the oracle never moves them). -/
def stepAgent (o : OracleState) (i : Nat) (resolve : Resolver) (a : OracleAgent) : OracleAgent :=
  let v : Vec2 := if a.maxSpeed = 0 then (0, 0) else resolve o i
  { a with velocity := v, position := a.position + vscale v o.timeStep }

/-- Advance every agent in the list, indices starting at i. -/
def stepAgents (resolve : Resolver) (o : OracleState) : Nat → List OracleAgent → List OracleAgent
  | _, [] => []
  | i, a :: rest => stepAgent o i resolve a :: stepAgents resolve o (i + 1) rest

/-- Modelled from the spec: advance() (RVO doStep) moves all agents by one
time step, resolving avoidance jointly on the pre-step state. -/
def doStep (resolve : Resolver) (o : OracleState) : OracleState :=
  { o with agents := stepAgents resolve o 0 o.agents }

/-- getAgentPosition, as an Option on the handle range. -/
def positionOf (o : OracleState) (h : Nat) : Option Vec2 :=
  (o.agents.get? h).map (·.position)

/-- getAgentVelocity, as an Option on the handle range. -/
def velocityOf (o : OracleState) (h : Nat) : Option Vec2 :=
  (o.agents.get? h).map (·.velocity)

/-- The stored preferred velocity of a handle, as an Option on the range. -/
def prefVelOf (o : OracleState) (h : Nat) : Option Vec2 :=
  (o.agents.get? h).map (·.prefVelocity)

/-- The stored maximum speed of a handle, as an Option on the range. -/
def maxSpeedOf (o : OracleState) (h : Nat) : Option ℚ :=
  (o.agents.get? h).map (·.maxSpeed)

/-- std::map from avatar label to trajectory, modelled as a lookup
function. -/
abbrev TrajMap : Type := String → Option AgentTrajectory

/-- map operator-bracket assignment: bind one key to a trajectory. -/
def mapInsert (m : TrajMap) (key : String) (t : AgentTrajectory) : TrajMap :=
  fun s => if s = key then some t else m s

/-- The member state of class ExperimentSimulation. -/
structure ExperimentState where
  sim : OracleState
  avatarData : TrajMap
  participantData : AgentTrajectory
  currentStep : Nat
  maxSteps : Nat
  subject : Nat
  trial : Nat

/-- The RVOSimulator as configured by the ExperimentSimulation constructor:
time step 1/90 and default maximum speed 2 (the other oracle defaults,
neighbor distance etc., are not observable through the modelled
interface). -/
def initialOracle : OracleState :=
  { timeStep := TIME_STEP, defaultMaxSpeed := MAX_SPEED, agents := [] }

/-- The ExperimentSimulation constructor: fresh oracle, empty trajectory
data, currentStep 0, maxSteps 0, subject 10, trial 76. -/
def initialExperiment : ExperimentState :=
  { sim := initialOracle
    avatarData := fun _ => none
    participantData := { positions := [], speeds := [], headings := [] }
    currentStep := 0
    maxSteps := 0
    subject := 10
    trial := 76 }

/-- The avatar map key, built as in the source: "A" + std::to_string(avatar) + "P". -/
def mkKey (avatar : Nat) : String := "A" ++ toString avatar ++ "P"

/-- The participant trajectory built by generateSampleData: 500 samples
indexed by i, with t = i * TIME_STEP. -/
def genParticipant (prims : FloatPrims) : AgentTrajectory :=
  let ms : Nat := 500
  { positions := (List.range ms).map fun (i : Nat) =>
      let t : ℚ := (i : ℚ) * TIME_STEP
      (MIN_X + 5 + 2 * prims.sinf (t * 0.5),
       MIN_Y + (MAX_Y - MIN_Y) * ((i : ℚ) / (ms : ℚ)))
    speeds := (List.range ms).map fun (i : Nat) =>
      let t : ℚ := (i : ℚ) * TIME_STEP
      1.2 + 0.3 * prims.sinf t
    headings := (List.range ms).map fun (i : Nat) =>
      let t : ℚ := (i : ℚ) * TIME_STEP
      prims.pi2 + 0.2 * prims.sinf (t * 0.3) }

/-- The trajectory generateSampleData builds for one avatar ordinal. -/
def genAvatarTraj (prims : FloatPrims) (avatar : Nat) : AgentTrajectory :=
  let ms : Nat := 500
  let offsetX : ℚ := ((avatar : ℚ) - 5.5) * 2
  let startY : ℚ := MAX_Y - 10
  { positions := (List.range ms).map fun (i : Nat) =>
      let t : ℚ := (i : ℚ) * TIME_STEP
      (MIN_X + 30 + offsetX + prims.sinf (t * 0.3 + (avatar : ℚ)),
       startY - (MAX_Y - MIN_Y) * 0.8 * ((i : ℚ) / (ms : ℚ)))
    speeds := (List.range ms).map fun (i : Nat) =>
      let t : ℚ := (i : ℚ) * TIME_STEP
      1 + 0.2 * prims.sinf (t + (avatar : ℚ))
    headings := (List.range ms).map fun (i : Nat) =>
      let t : ℚ := (i : ℚ) * TIME_STEP;
      -prims.pi2 + 0.1 * prims.sinf (t * 0.4 + (avatar : ℚ)) }

/-- ExperimentSimulation::generateSampleData: sets maxSteps to 500, fills
the participant trajectory and the ten avatar trajectories A1P .. A10P. -/
def generateSampleData (prims : FloatPrims) (st : ExperimentState) : ExperimentState :=
  { st with
    maxSteps := 500
    participantData := genParticipant prims
    avatarData := (List.range' 1 10).foldl
      (fun m k => mapInsert m (mkKey k) (genAvatarTraj prims k)) st.avatarData }

/-- ExperimentSimulation::loadTrajectoryData: ignores its data-path
argument, always generates the sample data and returns true. -/
def loadTrajectoryData (prims : FloatPrims) (dataPath : String) (st : ExperimentState) :
    Bool × ExperimentState :=
  (true, generateSampleData prims st)

/-- The condition of the degraded-mode warning branch in main (lines
233-235): taken when loadTrajectoryData returns false. -/
def mainWarnsDegraded (prims : FloatPrims) (dataPath : String) (st : ExperimentState) : Bool :=
  !(loadTrajectoryData prims dataPath st).1

/-- The avatar-registration loop of setupSimulation, over the ordinals in
the given list (the source iterates avatar = 1 .. 10): add an agent at the
trajectory tick-0 position when the key is present and nonempty. -/
def setupAvatars : List Nat → ExperimentState → ExperimentState
  | [], st => st
  | k :: ks, st =>
    match st.avatarData (mkKey k) with
    | some traj =>
      if traj.positions ≠ [] then
        setupAvatars ks { st with sim := (addAgent st.sim (traj.positions.headD (0, 0))).2 }
      else setupAvatars ks st
    | none => setupAvatars ks st

/-- ExperimentSimulation::setupSimulation: register the participant (when
its trajectory is nonempty), then avatars 1..10 (when present and
nonempty), then one goal agent at (MIN_X, sqrt(9*9 + 11*11) + MIN_Y) whose
maximum speed is immediately set to 0. -/
def setupSimulation (prims : FloatPrims) (st : ExperimentState) : ExperimentState :=
  let st1 := if st.participantData.positions ≠ [] then
      { st with sim := (addAgent st.sim (st.participantData.positions.headD (0, 0))).2 }
    else st
  let st2 := setupAvatars (List.range' 1 10) st1
  let goalPos : Vec2 := (MIN_X, prims.sqrtf (9 * 9 + 11 * 11) + MIN_Y)
  let reg := addAgent st2.sim goalPos
  { st2 with sim := setAgentMaxSpeed reg.2 reg.1 0 }

/-- ExperimentSimulation::calculatePreferredVelocity.  The C++ guard
compares the int currentStep against positions.size() - 1 computed in
size_t arithmetic, which wraps modulo 2 to the 64 when the trajectory is
empty; the subsequent vector indexing is modelled with Option, none
standing for an out-of-bounds read (undefined behaviour in C++). -/
def calculatePreferredVelocity (currentStep : Nat) (agentId : Nat)
    (trajectory : AgentTrajectory) : Option Vec2 :=
  if currentStep ≥ (trajectory.positions.length + (U64 - 1)) % U64 then
    some (0, 0)
  else do
    let currentPos ← trajectory.positions.get? currentStep
    let nextPos ← trajectory.positions.get? (currentStep + 1)
    some (vdiv (nextPos - currentPos) TIME_STEP)

/-- One iteration of the avatar loop of updateAgentPositions: when the key
is present and its trajectory still has a sample at currentStep, write the
estimated preferred velocity to the hardcoded handle equal to the
ordinal. -/
def updateOneAvatar (k : Nat) (st : ExperimentState) : Option ExperimentState :=
  match st.avatarData (mkKey k) with
  | some traj =>
    if st.currentStep < traj.positions.length then
      match calculatePreferredVelocity st.currentStep k traj with
      | some v => some { st with sim := setAgentPrefVelocity st.sim k v }
      | none => none
    else some st
  | none => some st

/-- The avatar loop of updateAgentPositions, over the ordinals in the given
list (the source iterates avatar = 1 .. 10). -/
def updateAvatarVelocities : List Nat → ExperimentState → Option ExperimentState
  | [], st => some st
  | k :: ks, st => (updateOneAvatar k st).bind (updateAvatarVelocities ks)

/-- ExperimentSimulation::updateAgentPositions: early return when
currentStep has reached maxSteps; otherwise set the participant's preferred
velocity (handle 0) when its trajectory still has a sample at currentStep,
likewise each avatar's (handles 1..10), and finally always set handle 11
(the goal in the full configuration) to the zero vector. -/
def updateAgentPositions (st : ExperimentState) : Option ExperimentState :=
  if st.currentStep ≥ st.maxSteps then some st
  else do
    let st1 ← if st.currentStep < st.participantData.positions.length then
        match calculatePreferredVelocity st.currentStep 0 st.participantData with
        | some v => some { st with sim := setAgentPrefVelocity st.sim 0 v }
        | none => none
      else some st
    let st2 ← updateAvatarVelocities (List.range' 1 10) st1
    some { st2 with sim := setAgentPrefVelocity st2.sim 11 (0, 0) }

/-- One CSV row of simulation_output.csv: step, agent id, position and
velocity components.  The speed column of the source is the Euclidean norm
of the velocity, derived data that is irrational in general and not used by
any claim, so it is not carried. -/
structure TickRecord where
  step : Nat
  agentId : Nat
  position : Vec2
  velocity : Vec2
deriving DecidableEq

/-- The logging loop over agents 0 .. numAgents - 1, indices starting at i. -/
def emitAgents (step : Nat) : Nat → List OracleAgent → List TickRecord
  | _, [] => []
  | i, a :: rest =>
    { step := step, agentId := i, position := a.position, velocity := a.velocity }
      :: emitAgents step (i + 1) rest

/-- The rows runSimulation writes for one sampled step, ordered by
ascending agent handle. -/
def emitRecords (step : Nat) (o : OracleState) : List TickRecord :=
  emitAgents step 0 o.agents

/-- One iteration of the runSimulation loop at tick t: set currentStep,
update all preferred velocities, advance the oracle once, and log every
agent when t is a multiple of 10. -/
def tickOnce (resolve : Resolver) (t : Nat) (st : ExperimentState) :
    Option (ExperimentState × List TickRecord) := do
  let st0 := { st with currentStep := t }
  let st1 ← updateAgentPositions st0
  let st2 := { st1 with sim := doStep resolve st1.sim }
  let recs := if t % 10 = 0 then emitRecords t st2.sim else []
  some (st2, recs)

/-- The state of the run loop just before the iteration for tick t (tick 0:
the starting state). -/
def stateAt (resolve : Resolver) (st : ExperimentState) : Nat → Option ExperimentState
  | 0 => some st
  | t + 1 => (stateAt resolve st t).bind fun s => (tickOnce resolve t s).map Prod.fst

/-- The runSimulation loop, started at tick t with n iterations remaining;
returns the final state, the emitted rows in order, and the number of
oracle advances performed. -/
def runFrom (resolve : Resolver) : Nat → Nat → ExperimentState →
    Option (ExperimentState × List TickRecord × Nat)
  | _, 0, st => some (st, [], 0)
  | t, n + 1, st => do
    let p ← tickOnce resolve t st
    let q ← runFrom resolve (t + 1) n p.1
    some (q.1, p.2 ++ q.2.1, q.2.2 + 1)

/-- ExperimentSimulation::runSimulation: the loop for currentStep = 0
upward, strictly bounded by maxSteps. -/
def runSimulation (resolve : Resolver) (st : ExperimentState) :
    Option (ExperimentState × List TickRecord × Nat) :=
  runFrom resolve 0 st.maxSteps st

/-- The trajectory driving a given moving-agent handle: the participant for
handle 0, the avatar with that ordinal for handles 1 .. 10. -/
def trajFor (st : ExperimentState) (k : Nat) : Option AgentTrajectory :=
  if k = 0 then some st.participantData else st.avatarData (mkKey k)

/-- The guard of the avatar branch of setupSimulation: the key is present
in the map and its trajectory is nonempty. -/
def avatarGuard (st : ExperimentState) (k : Nat) : Bool :=
  match st.avatarData (mkKey k) with
  | some t => !t.positions.isEmpty
  | none => false

/-- The post-setup configuration of the shipped program: twelve registered
agents, a nonempty participant trajectory and the ten nonempty avatar
trajectories. -/
def StandardConfig (st : ExperimentState) : Prop :=
  st.sim.agents.length = 12 ∧
  1 ≤ st.participantData.positions.length ∧
  ∀ k, 1 ≤ k → k ≤ 10 →
    ∃ traj, st.avatarData (mkKey k) = some traj ∧ 1 ≤ traj.positions.length

/-- The state main reaches before runSimulation: constructor, then
loadTrajectoryData (which generates the sample data), then setup. -/
def scenarioState (prims : FloatPrims) : ExperimentState :=
  setupSimulation prims (loadTrajectoryData prims "./data/" initialExperiment).2

/-! ### Basic lemmas about the modelled oracle operations -/

theorem length_modifyAgents (f : OracleAgent → OracleAgent) :
    ∀ (n : Nat) (l : List OracleAgent), (modifyAgents f n l).length = l.length := by
  intro n l
  induction l generalizing n with
  | nil => cases n <;> rfl
  | cons a rest ih => cases n with
    | zero => rfl
    | succ m => simpa [modifyAgents] using ih m

theorem getElem?_modifyAgents (f : OracleAgent → OracleAgent) :
    ∀ (n : Nat) (l : List OracleAgent) (j : Nat),
      (modifyAgents f n l)[j]? = if j = n then l[j]?.map f else l[j]? := by
  intro n l
  induction l generalizing n with
  | nil => intro j; cases n <;> simp [modifyAgents]
  | cons a rest ih =>
    intro j
    cases n with
    | zero => cases j <;> simp [modifyAgents]
    | succ m =>
      cases j with
      | zero => simp [modifyAgents]
      | succ i => simpa [modifyAgents, Nat.succ_inj] using ih m i

theorem length_setAgentPrefVelocity (o : OracleState) (h : Nat) (v : Vec2) :
    (setAgentPrefVelocity o h v).agents.length = o.agents.length :=
  length_modifyAgents _ h o.agents

theorem prefVelOf_setAgentPrefVelocity_self (o : OracleState) (h : Nat) (v : Vec2)
    (hlt : h < o.agents.length) :
    prefVelOf (setAgentPrefVelocity o h v) h = some v := by
  obtain ⟨a, ha⟩ : ∃ a, o.agents[h]? = some a :=
    ⟨_, List.getElem?_eq_getElem hlt⟩
  simp [prefVelOf, setAgentPrefVelocity, getElem?_modifyAgents, ha]

theorem prefVelOf_setAgentPrefVelocity_ne (o : OracleState) (h : Nat) (v : Vec2)
    (j : Nat) (hne : j ≠ h) :
    prefVelOf (setAgentPrefVelocity o h v) j = prefVelOf o j := by
  simp [prefVelOf, setAgentPrefVelocity, getElem?_modifyAgents, hne]

theorem maxSpeedOf_setAgentPrefVelocity (o : OracleState) (h : Nat) (v : Vec2) (j : Nat) :
    maxSpeedOf (setAgentPrefVelocity o h v) j = maxSpeedOf o j := by
  by_cases hj : j = h
  · subst hj
    cases ha : o.agents[j]? <;>
      simp [maxSpeedOf, setAgentPrefVelocity, getElem?_modifyAgents, ha]
  · simp [maxSpeedOf, setAgentPrefVelocity, getElem?_modifyAgents, hj]

theorem positionOf_setAgentPrefVelocity (o : OracleState) (h : Nat) (v : Vec2) (j : Nat) :
    positionOf (setAgentPrefVelocity o h v) j = positionOf o j := by
  by_cases hj : j = h
  · subst hj
    cases ha : o.agents[j]? <;>
      simp [positionOf, setAgentPrefVelocity, getElem?_modifyAgents, ha]
  · simp [positionOf, setAgentPrefVelocity, getElem?_modifyAgents, hj]

theorem velocityOf_setAgentPrefVelocity (o : OracleState) (h : Nat) (v : Vec2) (j : Nat) :
    velocityOf (setAgentPrefVelocity o h v) j = velocityOf o j := by
  by_cases hj : j = h
  · subst hj
    cases ha : o.agents[j]? <;>
      simp [velocityOf, setAgentPrefVelocity, getElem?_modifyAgents, ha]
  · simp [velocityOf, setAgentPrefVelocity, getElem?_modifyAgents, hj]

theorem timeStep_setAgentPrefVelocity (o : OracleState) (h : Nat) (v : Vec2) :
    (setAgentPrefVelocity o h v).timeStep = o.timeStep := rfl

theorem defaultMaxSpeed_setAgentPrefVelocity (o : OracleState) (h : Nat) (v : Vec2) :
    (setAgentPrefVelocity o h v).defaultMaxSpeed = o.defaultMaxSpeed := rfl

theorem getElem?_stepAgents (resolve : Resolver) (o : OracleState) :
    ∀ (l : List OracleAgent) (i j : Nat),
      (stepAgents resolve o i l)[j]? = l[j]?.map (stepAgent o (i + j) resolve) := by
  intro l
  induction l with
  | nil => intro i j; simp [stepAgents]
  | cons a rest ih =>
    intro i j
    cases j with
    | zero => simp [stepAgents]
    | succ m =>
      have h2 : i + (m + 1) = (i + 1) + m := by omega
      simp only [stepAgents, List.getElem?_cons_succ, h2]
      exact ih (i + 1) m

theorem length_stepAgents (resolve : Resolver) (o : OracleState) :
    ∀ (i : Nat) (l : List OracleAgent), (stepAgents resolve o i l).length = l.length := by
  intro i l
  induction l generalizing i with
  | nil => rfl
  | cons a rest ih => simpa [stepAgents] using ih (i + 1)

theorem length_doStep (resolve : Resolver) (o : OracleState) :
    (doStep resolve o).agents.length = o.agents.length :=
  length_stepAgents resolve o 0 o.agents

theorem prefVelOf_doStep (resolve : Resolver) (o : OracleState) (j : Nat) :
    prefVelOf (doStep resolve o) j = prefVelOf o j := by
  cases ha : o.agents[j]? <;>
    simp [prefVelOf, doStep, getElem?_stepAgents, ha, stepAgent]

theorem maxSpeedOf_doStep (resolve : Resolver) (o : OracleState) (j : Nat) :
    maxSpeedOf (doStep resolve o) j = maxSpeedOf o j := by
  cases ha : o.agents[j]? <;>
    simp [maxSpeedOf, doStep, getElem?_stepAgents, ha, stepAgent]

theorem timeStep_doStep (resolve : Resolver) (o : OracleState) :
    (doStep resolve o).timeStep = o.timeStep := rfl

/-! ### Lemmas about the record-emitting loop -/

theorem length_emitAgents (step : Nat) :
    ∀ (i : Nat) (l : List OracleAgent), (emitAgents step i l).length = l.length := by
  intro i l
  induction l generalizing i with
  | nil => rfl
  | cons a rest ih => simpa [emitAgents] using ih (i + 1)

theorem mem_emitAgents (step : Nat) :
    ∀ (l : List OracleAgent) (i : Nat) (r : TickRecord), r ∈ emitAgents step i l →
      ∃ j a, l[j]? = some a ∧
        r = { step := step, agentId := i + j, position := a.position, velocity := a.velocity } := by
  intro l
  induction l with
  | nil => intro i r hr; simp [emitAgents] at hr
  | cons a rest ih =>
    intro i r hr
    simp only [emitAgents, List.mem_cons] at hr
    rcases hr with hr | hr
    · exact ⟨0, a, by simp, by simpa using hr⟩
    · obtain ⟨j, b, hb, hr⟩ := ih (i + 1) r hr
      refine ⟨j + 1, b, by simpa using hb, ?_⟩
      rw [show i + (j + 1) = (i + 1) + j from by omega]
      exact hr

theorem getElem?_emitAgents (step : Nat) :
    ∀ (l : List OracleAgent) (i j : Nat),
      (emitAgents step i l)[j]? = l[j]?.map fun a =>
        { step := step, agentId := i + j, position := a.position, velocity := a.velocity } := by
  intro l
  induction l with
  | nil => intro i j; simp [emitAgents]
  | cons a rest ih =>
    intro i j
    cases j with
    | zero => simp [emitAgents]
    | succ m =>
      have h2 : i + (m + 1) = (i + 1) + m := by omega
      simp only [emitAgents, List.getElem?_cons_succ, h2]
      exact ih (i + 1) m

/-! ### Lemmas about the preferred-velocity estimator -/

theorem calculatePreferredVelocity_exhausted (t a : Nat) (traj : AgentTrajectory)
    (h1 : 1 ≤ traj.positions.length) (h2 : traj.positions.length - 1 ≤ t) :
    calculatePreferredVelocity t a traj = some (0, 0) := by
  have hrw : traj.positions.length + (U64 - 1) = (traj.positions.length - 1) + U64 := by
    have : 1 ≤ U64 := by norm_num [U64]
    omega
  have hmod : (traj.positions.length + (U64 - 1)) % U64 ≤ traj.positions.length - 1 := by
    rw [hrw, Nat.add_mod_right]
    exact Nat.mod_le _ _
  have : (traj.positions.length + (U64 - 1)) % U64 ≤ t := le_trans hmod h2
  simp [calculatePreferredVelocity, this]

theorem calculatePreferredVelocity_formula (t a : Nat) (traj : AgentTrajectory)
    (hU : traj.positions.length < U64) (hlt : t + 1 < traj.positions.length)
    (p q : Vec2) (hp : traj.positions[t]? = some p)
    (hq : traj.positions[t + 1]? = some q) :
    calculatePreferredVelocity t a traj = some (vdiv (q - p) TIME_STEP) := by
  have h1 : 1 ≤ traj.positions.length := by omega
  have hrw : traj.positions.length + (U64 - 1) = (traj.positions.length - 1) + U64 := by
    have : 1 ≤ U64 := by norm_num [U64]
    omega
  have hmod : (traj.positions.length + (U64 - 1)) % U64 = traj.positions.length - 1 := by
    rw [hrw, Nat.add_mod_right]
    exact Nat.mod_eq_of_lt (by omega)
  have hguard : ¬ t ≥ (traj.positions.length + (U64 - 1)) % U64 := by
    rw [hmod]; omega
  simp [calculatePreferredVelocity, hguard, hp, hq]

theorem calculatePreferredVelocity_total (t a : Nat) (traj : AgentTrajectory)
    (h1 : 1 ≤ traj.positions.length) :
    ∃ v, calculatePreferredVelocity t a traj = some v := by
  by_cases hguard : t ≥ (traj.positions.length + (U64 - 1)) % U64
  · exact ⟨(0, 0), by simp [calculatePreferredVelocity, hguard]⟩
  · have hrw : traj.positions.length + (U64 - 1) = (traj.positions.length - 1) + U64 := by
      have : 1 ≤ U64 := by norm_num [U64]
      omega
    have hmod : (traj.positions.length + (U64 - 1)) % U64 ≤ traj.positions.length - 1 := by
      rw [hrw, Nat.add_mod_right]
      exact Nat.mod_le _ _
    have ht1 : t + 1 < traj.positions.length := by omega
    obtain ⟨p, hp⟩ : ∃ p, traj.positions[t]? = some p :=
      ⟨_, List.getElem?_eq_getElem (by omega)⟩
    obtain ⟨q, hq⟩ : ∃ q, traj.positions[t + 1]? = some q :=
      ⟨_, List.getElem?_eq_getElem ht1⟩
    exact ⟨vdiv (q - p) TIME_STEP, by simp [calculatePreferredVelocity, hguard, hp, hq]⟩

/-! ### Characterization of updateAgentPositions -/

/-- The experiment fields that the preferred-velocity updates never touch. -/
def DataEq (st st' : ExperimentState) : Prop :=
  st'.avatarData = st.avatarData ∧ st'.participantData = st.participantData ∧
  st'.maxSteps = st.maxSteps

/-- Oracle fields preserved by a preferred-velocity write: everything except
the stored preferred velocities. -/
def SimShapeEq (o o' : OracleState) : Prop :=
  o'.timeStep = o.timeStep ∧ o'.defaultMaxSpeed = o.defaultMaxSpeed ∧
  o'.agents.length = o.agents.length ∧
  (∀ j, maxSpeedOf o' j = maxSpeedOf o j) ∧
  (∀ j, positionOf o' j = positionOf o j) ∧
  (∀ j, velocityOf o' j = velocityOf o j)

theorem simShapeEq_refl (o : OracleState) : SimShapeEq o o :=
  ⟨rfl, rfl, rfl, fun _ => rfl, fun _ => rfl, fun _ => rfl⟩

theorem simShapeEq_trans {o1 o2 o3 : OracleState}
    (h : SimShapeEq o1 o2) (h' : SimShapeEq o2 o3) : SimShapeEq o1 o3 :=
  ⟨h'.1.trans h.1, h'.2.1.trans h.2.1, h'.2.2.1.trans h.2.2.1,
   fun j => (h'.2.2.2.1 j).trans (h.2.2.2.1 j),
   fun j => (h'.2.2.2.2.1 j).trans (h.2.2.2.2.1 j),
   fun j => (h'.2.2.2.2.2 j).trans (h.2.2.2.2.2 j)⟩

theorem simShapeEq_setAgentPrefVelocity (o : OracleState) (h : Nat) (v : Vec2) :
    SimShapeEq o (setAgentPrefVelocity o h v) :=
  ⟨rfl, rfl, length_setAgentPrefVelocity o h v,
   fun j => maxSpeedOf_setAgentPrefVelocity o h v j,
   fun j => positionOf_setAgentPrefVelocity o h v j,
   fun j => velocityOf_setAgentPrefVelocity o h v j⟩

theorem updateOneAvatar_spec (k : Nat) (st : ExperimentState) :
    ∃ st', updateOneAvatar k st = some st' ∧
      st'.avatarData = st.avatarData ∧ st'.participantData = st.participantData ∧
      st'.maxSteps = st.maxSteps ∧ st'.currentStep = st.currentStep ∧
      SimShapeEq st.sim st'.sim ∧
      (∀ j, j ≠ k → prefVelOf st'.sim j = prefVelOf st.sim j) ∧
      (∀ traj, st.avatarData (mkKey k) = some traj →
        (st.currentStep < traj.positions.length →
          ∃ v, calculatePreferredVelocity st.currentStep k traj = some v ∧
            (k < st.sim.agents.length → prefVelOf st'.sim k = some v)) ∧
        (traj.positions.length ≤ st.currentStep →
          prefVelOf st'.sim k = prefVelOf st.sim k)) := by
  cases htraj : st.avatarData (mkKey k) with
  | none =>
    refine ⟨st, by simp [updateOneAvatar, htraj], rfl, rfl, rfl, rfl, simShapeEq_refl _,
      fun _ _ => rfl, ?_⟩
    intro traj htraj'
    exact Option.noConfusion htraj'
  | some traj =>
    by_cases hstep : st.currentStep < traj.positions.length
    · obtain ⟨v, hv⟩ := calculatePreferredVelocity_total st.currentStep k traj (by omega)
      refine ⟨{ st with sim := setAgentPrefVelocity st.sim k v },
        by simp [updateOneAvatar, htraj, hstep, hv], rfl, rfl, rfl, rfl,
        simShapeEq_setAgentPrefVelocity st.sim k v,
        fun j hj => prefVelOf_setAgentPrefVelocity_ne st.sim k v j hj, ?_⟩
      intro traj' htraj'
      injection htraj' with htraj'
      subst htraj'
      refine ⟨fun _ => ⟨v, hv, fun hlen => ?_⟩, fun hle => absurd hstep (by omega)⟩
      exact prefVelOf_setAgentPrefVelocity_self st.sim k v hlen
    · refine ⟨st, by simp [updateOneAvatar, htraj, hstep], rfl, rfl, rfl, rfl,
        simShapeEq_refl _, fun _ _ => rfl, ?_⟩
      intro traj' htraj'
      injection htraj' with htraj'
      subst htraj'
      exact ⟨fun hs => absurd hs hstep, fun _ => rfl⟩

theorem updateAvatarVelocities_spec :
    ∀ (ks : List Nat) (st : ExperimentState), ks.Nodup →
      ∃ st', updateAvatarVelocities ks st = some st' ∧
        st'.avatarData = st.avatarData ∧ st'.participantData = st.participantData ∧
        st'.maxSteps = st.maxSteps ∧ st'.currentStep = st.currentStep ∧
        SimShapeEq st.sim st'.sim ∧
        (∀ j, j ∉ ks → prefVelOf st'.sim j = prefVelOf st.sim j) ∧
        (∀ k ∈ ks, ∀ traj, st.avatarData (mkKey k) = some traj →
          (st.currentStep < traj.positions.length →
            ∃ v, calculatePreferredVelocity st.currentStep k traj = some v ∧
              (k < st.sim.agents.length → prefVelOf st'.sim k = some v)) ∧
          (traj.positions.length ≤ st.currentStep →
            prefVelOf st'.sim k = prefVelOf st.sim k)) := by
  intro ks
  induction ks with
  | nil =>
    intro st _
    exact ⟨st, rfl, rfl, rfl, rfl, rfl, simShapeEq_refl _,
      fun _ _ => rfl, fun k hk => absurd hk (List.not_mem_nil k)⟩
  | cons k ks ih =>
    intro st hnd
    have hkks : k ∉ ks := (List.nodup_cons.mp hnd).1
    have hnd' : ks.Nodup := (List.nodup_cons.mp hnd).2
    obtain ⟨st1, a1, a2, a3, a4, a5, a6, a7, a8⟩ := updateOneAvatar_spec k st
    obtain ⟨st', h1, h2, h3, h4, h5, h6, h7, h8⟩ := ih st1 hnd'
    have heq : updateAvatarVelocities (k :: ks) st = some st' := by
      simp [updateAvatarVelocities, a1, h1]
    refine ⟨st', heq, h2.trans a2, h3.trans a3, h4.trans a4, h5.trans a5,
      simShapeEq_trans a6 h6, ?_, ?_⟩
    · intro j hj
      have hj1 : j ∉ ks := fun hm => hj (List.mem_cons_of_mem k hm)
      have hj2 : j ≠ k := fun hh => hj (hh ▸ List.mem_cons_self k ks)
      exact (h7 j hj1).trans (a7 j hj2)
    · intro k' hk' traj htraj
      rcases List.mem_cons.mp hk' with rfl | hk'
      · obtain ⟨b1, b2⟩ := a8 traj htraj
        refine ⟨fun hs => ?_, fun hs => ?_⟩
        · obtain ⟨v, hv, hpv⟩ := b1 hs
          exact ⟨v, hv, fun hlen => (h7 k' hkks).trans (hpv hlen)⟩
        · exact ((h7 k' hkks).trans (b2 hs))
      · have hne : k' ≠ k := fun hh => hkks (hh ▸ hk')
        have htraj1 : st1.avatarData (mkKey k') = some traj := by rw [a2]; exact htraj
        obtain ⟨b1, b2⟩ := h8 k' hk' traj htraj1
        rw [a5] at b1 b2
        refine ⟨fun hs => ?_, fun hs => ?_⟩
        · obtain ⟨v, hv, hpv⟩ := b1 hs
          refine ⟨v, hv, fun hlen => hpv ?_⟩
          rw [a6.2.2.1]
          exact hlen
        · exact (b2 hs).trans (a7 k' hne)

theorem updateAgentPositions_total (st : ExperimentState) :
    ∃ st', updateAgentPositions st = some st' ∧
      st'.avatarData = st.avatarData ∧ st'.participantData = st.participantData ∧
      st'.maxSteps = st.maxSteps ∧ st'.currentStep = st.currentStep ∧
      SimShapeEq st.sim st'.sim := by
  by_cases hms : st.currentStep ≥ st.maxSteps
  · exact ⟨st, by simp [updateAgentPositions, hms], rfl, rfl, rfl, rfl, simShapeEq_refl _⟩
  · by_cases hp : st.currentStep < st.participantData.positions.length
    · obtain ⟨v0, hv0⟩ :=
        calculatePreferredVelocity_total st.currentStep 0 st.participantData (by omega)
      obtain ⟨st2, h1, h2, h3, h4, h5, h6, h7, h8⟩ :=
        updateAvatarVelocities_spec (List.range' 1 10)
          { st with sim := setAgentPrefVelocity st.sim 0 v0 } (by decide)
      refine ⟨{ st2 with sim := setAgentPrefVelocity st2.sim 11 (0, 0) },
        by simp [updateAgentPositions, hms, hp, hv0, h1], h2, h3, h4, h5, ?_⟩
      exact simShapeEq_trans (simShapeEq_setAgentPrefVelocity st.sim 0 v0)
        (simShapeEq_trans h6 (simShapeEq_setAgentPrefVelocity st2.sim 11 (0, 0)))
    · obtain ⟨st2, h1, h2, h3, h4, h5, h6, h7, h8⟩ :=
        updateAvatarVelocities_spec (List.range' 1 10) st (by decide)
      exact ⟨{ st2 with sim := setAgentPrefVelocity st2.sim 11 (0, 0) },
        by simp [updateAgentPositions, hms, hp, h1], h2, h3, h4, h5,
        simShapeEq_trans h6 (simShapeEq_setAgentPrefVelocity st2.sim 11 (0, 0))⟩

theorem updateAgentPositions_spec (st : ExperimentState)
    (hlt : st.currentStep < st.maxSteps)
    (hplen : 1 ≤ st.participantData.positions.length)
    (h11 : 11 < st.sim.agents.length) :
    ∃ st', updateAgentPositions st = some st' ∧
      st'.avatarData = st.avatarData ∧ st'.participantData = st.participantData ∧
      st'.maxSteps = st.maxSteps ∧ st'.currentStep = st.currentStep ∧
      SimShapeEq st.sim st'.sim ∧
      prefVelOf st'.sim 11 = some (0, 0) ∧
      (∀ k, k ≤ 10 → ∀ traj, trajFor st k = some traj →
        (st.currentStep < traj.positions.length →
          ∃ v, calculatePreferredVelocity st.currentStep k traj = some v ∧
            prefVelOf st'.sim k = some v) ∧
        (traj.positions.length ≤ st.currentStep →
          prefVelOf st'.sim k = prefVelOf st.sim k)) := by
  have hms : ¬ st.currentStep ≥ st.maxSteps := by omega
  have hnodup : (List.range' 1 10).Nodup := by decide
  have h0mem : (0 : Nat) ∉ List.range' 1 10 := by decide
  by_cases hp : st.currentStep < st.participantData.positions.length
  · obtain ⟨v0, hv0⟩ :=
      calculatePreferredVelocity_total st.currentStep 0 st.participantData hplen
    obtain ⟨st2, h1, h2, h3, h4, h5, h6, h7, h8⟩ :=
      updateAvatarVelocities_spec (List.range' 1 10)
        { st with sim := setAgentPrefVelocity st.sim 0 v0 } hnodup
    have hlen2 : st2.sim.agents.length = st.sim.agents.length := by
      have := h6.2.2.1
      simpa [length_setAgentPrefVelocity] using this
    refine ⟨{ st2 with sim := setAgentPrefVelocity st2.sim 11 (0, 0) },
      by simp [updateAgentPositions, hms, hp, hv0, h1], h2, h3, h4, h5,
      simShapeEq_trans (simShapeEq_setAgentPrefVelocity st.sim 0 v0)
        (simShapeEq_trans h6 (simShapeEq_setAgentPrefVelocity st2.sim 11 (0, 0))), ?_, ?_⟩
    · exact prefVelOf_setAgentPrefVelocity_self st2.sim 11 (0, 0) (by omega)
    · intro k hk traj htraj
      rcases Nat.eq_zero_or_pos k with rfl | hkpos
      · simp only [trajFor, if_pos rfl] at htraj
        injection htraj with htraj
        subst htraj
        refine ⟨fun _ => ⟨v0, hv0, ?_⟩, fun hle => absurd hp (by omega)⟩
        have e1 : prefVelOf (setAgentPrefVelocity st2.sim 11 (0, 0)) 0 =
            prefVelOf st2.sim 0 :=
          prefVelOf_setAgentPrefVelocity_ne st2.sim 11 (0, 0) 0 (by omega)
        have e2 : prefVelOf st2.sim 0 =
            prefVelOf (setAgentPrefVelocity st.sim 0 v0) 0 := h7 0 h0mem
        have e3 : prefVelOf (setAgentPrefVelocity st.sim 0 v0) 0 = some v0 :=
          prefVelOf_setAgentPrefVelocity_self st.sim 0 v0 (by omega)
        exact e1.trans (e2.trans e3)
      · have hkmem : k ∈ List.range' 1 10 := by
          have : 1 ≤ k ∧ k < 11 := ⟨hkpos, by omega⟩
          simpa [List.mem_range'_1] using this
        have htraj' : ({ st with sim := setAgentPrefVelocity st.sim 0 v0 } :
            ExperimentState).avatarData (mkKey k) = some traj := by
          simpa [trajFor, Nat.pos_iff_ne_zero.mp hkpos] using htraj
        obtain ⟨b1, b2⟩ := h8 k hkmem traj htraj'
        have hpe : prefVelOf (setAgentPrefVelocity st2.sim 11 (0, 0)) k =
            prefVelOf st2.sim k :=
          prefVelOf_setAgentPrefVelocity_ne st2.sim 11 (0, 0) k (by omega)
        refine ⟨fun hs => ?_, fun hs => ?_⟩
        · obtain ⟨v, hv, hpv⟩ := b1 hs
          refine ⟨v, hv, ?_⟩
          rw [hpe]
          exact hpv (by simp [length_setAgentPrefVelocity]; omega)
        · rw [hpe, b2 hs]
          exact prefVelOf_setAgentPrefVelocity_ne st.sim 0 v0 k
            (Nat.pos_iff_ne_zero.mp hkpos)
  · obtain ⟨st2, h1, h2, h3, h4, h5, h6, h7, h8⟩ :=
      updateAvatarVelocities_spec (List.range' 1 10) st hnodup
    have hlen2 : st2.sim.agents.length = st.sim.agents.length := h6.2.2.1
    refine ⟨{ st2 with sim := setAgentPrefVelocity st2.sim 11 (0, 0) },
      by simp [updateAgentPositions, hms, hp, h1], h2, h3, h4, h5,
      simShapeEq_trans h6 (simShapeEq_setAgentPrefVelocity st2.sim 11 (0, 0)), ?_, ?_⟩
    · exact prefVelOf_setAgentPrefVelocity_self st2.sim 11 (0, 0) (by omega)
    · intro k hk traj htraj
      rcases Nat.eq_zero_or_pos k with rfl | hkpos
      · simp only [trajFor, if_pos rfl] at htraj
        injection htraj with htraj
        subst htraj
        refine ⟨fun hs => absurd hs hp, fun hle => ?_⟩
        have e1 : prefVelOf (setAgentPrefVelocity st2.sim 11 (0, 0)) 0 =
            prefVelOf st2.sim 0 :=
          prefVelOf_setAgentPrefVelocity_ne st2.sim 11 (0, 0) 0 (by omega)
        exact e1.trans (h7 0 h0mem)
      · have hkmem : k ∈ List.range' 1 10 := by
          have : 1 ≤ k ∧ k < 11 := ⟨hkpos, by omega⟩
          simpa [List.mem_range'_1] using this
        have htraj' : st.avatarData (mkKey k) = some traj := by
          simpa [trajFor, Nat.pos_iff_ne_zero.mp hkpos] using htraj
        obtain ⟨b1, b2⟩ := h8 k hkmem traj htraj'
        have hpe : prefVelOf (setAgentPrefVelocity st2.sim 11 (0, 0)) k =
            prefVelOf st2.sim k :=
          prefVelOf_setAgentPrefVelocity_ne st2.sim 11 (0, 0) k (by omega)
        refine ⟨fun hs => ?_, fun hs => ?_⟩
        · obtain ⟨v, hv, hpv⟩ := b1 hs
          exact ⟨v, hv, by rw [hpe]; exact hpv (by omega)⟩
        · rw [hpe]
          exact b2 hs

/-! ### Characterization of the run loop -/

/-- The number of sampled ticks among ticks t, t+1, ..., t+n-1 (those that
are multiples of 10). -/
def countSampled : Nat → Nat → Nat
  | _, 0 => 0
  | t, n + 1 => (if t % 10 = 0 then 1 else 0) + countSampled (t + 1) n

theorem tickOnce_total (resolve : Resolver) (t : Nat) (st : ExperimentState) :
    ∃ st2 recs, tickOnce resolve t st = some (st2, recs) ∧
      st2.avatarData = st.avatarData ∧ st2.participantData = st.participantData ∧
      st2.maxSteps = st.maxSteps ∧
      st2.sim.timeStep = st.sim.timeStep ∧
      st2.sim.defaultMaxSpeed = st.sim.defaultMaxSpeed ∧
      st2.sim.agents.length = st.sim.agents.length ∧
      (∀ j, maxSpeedOf st2.sim j = maxSpeedOf st.sim j) ∧
      recs.length = (if t % 10 = 0 then st.sim.agents.length else 0) ∧
      (∀ r ∈ recs, r.step = t ∧ r.agentId < st.sim.agents.length ∧
        (maxSpeedOf st.sim r.agentId = some 0 → r.velocity = (0, 0))) := by
  obtain ⟨st1, h1, h2, h3, h4, h5, h6⟩ :=
    updateAgentPositions_total { st with currentStep := t }
  have hlen1 : st1.sim.agents.length = st.sim.agents.length := h6.2.2.1
  have hms1 : ∀ j, maxSpeedOf st1.sim j = maxSpeedOf st.sim j := h6.2.2.2.1
  refine ⟨{ st1 with sim := doStep resolve st1.sim },
    if t % 10 = 0 then emitRecords t (doStep resolve st1.sim) else [],
    by simp [tickOnce, h1], h2, h3, h4, ?_, ?_, ?_, ?_, ?_, ?_⟩
  · exact (timeStep_doStep resolve st1.sim).trans h6.1
  · exact h6.2.1
  · exact (length_doStep resolve st1.sim).trans hlen1
  · intro j
    exact (maxSpeedOf_doStep resolve st1.sim j).trans (hms1 j)
  · by_cases hsample : t % 10 = 0
    · simp [hsample, emitRecords, length_emitAgents, length_doStep, hlen1]
    · simp [hsample]
  · intro r hr
    by_cases hsample : t % 10 = 0
    · rw [if_pos hsample] at hr
      obtain ⟨j, a, ha, hre⟩ := mem_emitAgents t _ 0 r hr
      have hj : j < st.sim.agents.length := by
        have := List.getElem?_eq_some.mp ha
        obtain ⟨hjl, _⟩ := this
        rw [length_doStep resolve st1.sim, hlen1] at hjl
        exact hjl
      refine ⟨by rw [hre], by rw [hre]; simpa using hj, ?_⟩
      intro hzero
      rw [hre]
      simp only [Nat.zero_add] at *
      rw [doStep, getElem?_stepAgents] at ha
      obtain ⟨b, hb, hab⟩ := Option.map_eq_some'.mp ha
      have hbms : b.maxSpeed = 0 := by
        have : maxSpeedOf st1.sim j = some 0 := by
          rw [hms1 j]
          rw [hre] at hzero
          simpa using hzero
        rw [maxSpeedOf] at this
        rw [List.get?_eq_getElem?, hb] at this
        simpa using this
      rw [← hab]
      simp [stepAgent, hbms]
    · rw [if_neg hsample] at hr
      exact absurd hr (List.not_mem_nil r)

theorem runFrom_total (resolve : Resolver) :
    ∀ (n t : Nat) (st : ExperimentState),
      ∃ stF recs, runFrom resolve t n st = some (stF, recs, n) ∧
        stF.avatarData = st.avatarData ∧ stF.participantData = st.participantData ∧
        stF.maxSteps = st.maxSteps ∧
        stF.sim.agents.length = st.sim.agents.length ∧
        (∀ j, maxSpeedOf stF.sim j = maxSpeedOf st.sim j) ∧
        recs.length = countSampled t n * st.sim.agents.length ∧
        (∀ r ∈ recs, t ≤ r.step ∧ r.agentId < st.sim.agents.length ∧
          (maxSpeedOf st.sim r.agentId = some 0 → r.velocity = (0, 0))) := by
  intro n
  induction n with
  | zero =>
    intro t st
    exact ⟨st, [], rfl, rfl, rfl, rfl, rfl, fun _ => rfl, by simp [countSampled],
      fun r hr => absurd hr (List.not_mem_nil r)⟩
  | succ n ih =>
    intro t st
    obtain ⟨st2, recs0, a1, a2, a3, a4, a5, a6, a7, a8, a9, a10⟩ := tickOnce_total resolve t st
    obtain ⟨stF, recs1, b1, b2, b3, b4, b5, b6, b7, b8⟩ := ih (t + 1) st2
    refine ⟨stF, recs0 ++ recs1, ?_, b2.trans a2, b3.trans a3, b4.trans a4,
      b5.trans a7, fun j => (b6 j).trans (a8 j), ?_, ?_⟩
    · simp only [runFrom, a1, Option.bind_eq_bind, Option.some_bind, b1]
    · rw [List.length_append, a9, b7, a7]
      by_cases hsample : t % 10 = 0 <;> simp [countSampled, hsample] <;> ring
    · intro r hr
      rcases List.mem_append.mp hr with hr | hr
      · obtain ⟨c1, c2, c3⟩ := a10 r hr
        exact ⟨by omega, c2, c3⟩
      · obtain ⟨c1, c2, c3⟩ := b8 r hr
        refine ⟨by omega, by rw [← a7]; exact c2, ?_⟩
        intro hzero
        exact c3 (by rw [a8]; exact hzero)

theorem stateAt_spec (resolve : Resolver) (st : ExperimentState)
    (H : StandardConfig st) :
    ∀ t, t ≤ st.maxSteps →
      ∃ stB, stateAt resolve st t = some stB ∧
        stB.avatarData = st.avatarData ∧ stB.participantData = st.participantData ∧
        stB.maxSteps = st.maxSteps ∧
        stB.sim.agents.length = 12 ∧
        stB.sim.timeStep = st.sim.timeStep ∧
        (∀ j, maxSpeedOf stB.sim j = maxSpeedOf st.sim j) ∧
        (∀ k, k ≤ 10 → ∀ traj, trajFor st k = some traj → traj.positions.length ≤ t →
          prefVelOf stB.sim k = some (0, 0)) := by
  obtain ⟨h12, hplen, hav⟩ := H
  intro t
  induction t with
  | zero =>
    intro _
    refine ⟨st, rfl, rfl, rfl, rfl, h12, rfl, fun _ => rfl, ?_⟩
    intro k hk traj htraj hle
    exfalso
    rcases Nat.eq_zero_or_pos k with rfl | hkpos
    · simp only [trajFor, if_pos rfl] at htraj
      injection htraj with htraj
      subst htraj
      omega
    · obtain ⟨traj', htraj', hlen'⟩ := hav k hkpos hk
      rw [trajFor, if_neg (Nat.pos_iff_ne_zero.mp hkpos)] at htraj
      rw [htraj] at htraj'
      injection htraj' with htraj'
      subst htraj'
      omega
  | succ t ih =>
    intro ht1
    obtain ⟨stB, hB, c1, c2, c3, c4, c5, c6, c7⟩ := ih (by omega)
    obtain ⟨stU, u1, u2, u3, u4, u5, u6, u7, u8⟩ :=
      updateAgentPositions_spec { stB with currentStep := t }
        (by show t < stB.maxSteps; omega)
        (by show 1 ≤ stB.participantData.positions.length; rw [c2]; exact hplen)
        (by show 11 < stB.sim.agents.length; omega)
    refine ⟨{ stU with sim := doStep resolve stU.sim },
      by simp [stateAt, hB, tickOnce, u1], u2.trans c1, u3.trans c2, u4.trans c3,
      ((length_doStep resolve stU.sim).trans u6.2.2.1).trans c4,
      ((timeStep_doStep resolve stU.sim).trans u6.1).trans c5,
      fun j => ((maxSpeedOf_doStep resolve stU.sim j).trans (u6.2.2.2.1 j)).trans (c6 j),
      ?_⟩
    intro k hk traj htraj hle
    have htraj0 : trajFor { stB with currentStep := t } k = some traj := by
      rcases Nat.eq_zero_or_pos k with rfl | hkpos
      · simp only [trajFor, if_pos rfl] at htraj ⊢
        show some stB.participantData = some traj
        rw [c2]
        exact htraj
      · simp only [trajFor, if_neg (Nat.pos_iff_ne_zero.mp hkpos)] at htraj ⊢
        show stB.avatarData (mkKey k) = some traj
        rw [c1]
        exact htraj
    obtain ⟨f1, f2⟩ := u8 k hk traj htraj0
    have hstep : prefVelOf (doStep resolve stU.sim) k = prefVelOf stU.sim k :=
      prefVelOf_doStep resolve stU.sim k
    show prefVelOf (doStep resolve stU.sim) k = some (0, 0)
    rw [hstep]
    by_cases hcase : traj.positions.length ≤ t
    · rw [f2 hcase]
      exact c7 k hk traj htraj hcase
    · have hfr : ({ stB with currentStep := t } : ExperimentState).currentStep <
          traj.positions.length := by
        show t < traj.positions.length
        omega
      obtain ⟨v, hv, hpv⟩ := f1 hfr
      have hv' : calculatePreferredVelocity t k traj = some v := hv
      have hv0 : calculatePreferredVelocity t k traj = some (0, 0) :=
        calculatePreferredVelocity_exhausted t k traj (by omega) (by omega)
      rw [hpv]
      rw [hv'] at hv0
      exact hv0

/-! ### Characterization of setupSimulation -/

/-- The oracle agent that registration creates for one avatar ordinal (a
proof-side abbreviation used to state the effect of setup). -/
def avatarEntry (st : ExperimentState) (k : Nat) : OracleAgent :=
  { position := ((st.avatarData (mkKey k)).map (fun t => t.positions.headD (0, 0))).getD (0, 0),
    velocity := (0, 0), prefVelocity := (0, 0), maxSpeed := st.sim.defaultMaxSpeed }

theorem avatarGuard_eq_of {st1 st2 : ExperimentState}
    (h : st1.avatarData = st2.avatarData) : avatarGuard st1 = avatarGuard st2 :=
  funext fun k => by simp [avatarGuard, h]

theorem avatarEntry_eq_of {st1 st2 : ExperimentState}
    (h1 : st1.avatarData = st2.avatarData)
    (h2 : st1.sim.defaultMaxSpeed = st2.sim.defaultMaxSpeed) :
    avatarEntry st1 = avatarEntry st2 :=
  funext fun k => by simp [avatarEntry, h1, h2]

theorem avatarGuard_true_iff (st : ExperimentState) (k : Nat) :
    avatarGuard st k = true ↔
      ∃ traj, st.avatarData (mkKey k) = some traj ∧ traj.positions ≠ [] := by
  cases h : st.avatarData (mkKey k) with
  | none => simp [avatarGuard, h]
  | some traj => simp [avatarGuard, h, List.isEmpty_iff]

theorem setupAvatars_spec :
    ∀ (ks : List Nat) (st : ExperimentState),
      (setupAvatars ks st).avatarData = st.avatarData ∧
      (setupAvatars ks st).participantData = st.participantData ∧
      (setupAvatars ks st).maxSteps = st.maxSteps ∧
      (setupAvatars ks st).currentStep = st.currentStep ∧
      (setupAvatars ks st).sim.timeStep = st.sim.timeStep ∧
      (setupAvatars ks st).sim.defaultMaxSpeed = st.sim.defaultMaxSpeed ∧
      (setupAvatars ks st).sim.agents =
        st.sim.agents ++ (ks.filter (avatarGuard st)).map (avatarEntry st) := by
  intro ks
  induction ks with
  | nil => intro st; exact ⟨rfl, rfl, rfl, rfl, rfl, rfl, by simp [setupAvatars]⟩
  | cons k ks ih =>
    intro st
    cases htraj : st.avatarData (mkKey k) with
    | none =>
      have hg : avatarGuard st k = false := by simp [avatarGuard, htraj]
      have heq : setupAvatars (k :: ks) st = setupAvatars ks st := by
        simp [setupAvatars, htraj]
      rw [heq]
      obtain ⟨g1, g2, g3, g4, g5, g6, g7⟩ := ih st
      exact ⟨g1, g2, g3, g4, g5, g6, by rw [g7, List.filter_cons, hg]; simp⟩
    | some traj =>
      by_cases hne : traj.positions = []
      · have hg : avatarGuard st k = false := by
          simp [avatarGuard, htraj, hne]
        have heq : setupAvatars (k :: ks) st = setupAvatars ks st := by
          simp [setupAvatars, htraj, hne]
        rw [heq]
        obtain ⟨g1, g2, g3, g4, g5, g6, g7⟩ := ih st
        exact ⟨g1, g2, g3, g4, g5, g6, by rw [g7, List.filter_cons, hg]; simp⟩
      · have hg : avatarGuard st k = true := by
          simp [avatarGuard, htraj, hne]
        have heq : setupAvatars (k :: ks) st = setupAvatars ks
            { st with sim := (addAgent st.sim (traj.positions.headD (0, 0))).2 } := by
          simp [setupAvatars, htraj, hne]
        rw [heq]
        obtain ⟨g1, g2, g3, g4, g5, g6, g7⟩ :=
          ih { st with sim := (addAgent st.sim (traj.positions.headD (0, 0))).2 }
        refine ⟨g1, g2, g3, g4, g5, g6, ?_⟩
        rw [g7]
        rw [@avatarGuard_eq_of
          { st with sim := (addAgent st.sim (traj.positions.headD (0, 0))).2 } st rfl]
        rw [@avatarEntry_eq_of
          { st with sim := (addAgent st.sim (traj.positions.headD (0, 0))).2 } st rfl rfl]
        rw [List.filter_cons, hg]
        have hentry : avatarEntry st k =
            { position := traj.positions.headD (0, 0), velocity := (0, 0),
              prefVelocity := (0, 0), maxSpeed := st.sim.defaultMaxSpeed } := by
          simp [avatarEntry, htraj]
        show st.sim.agents ++
            [{ position := traj.positions.headD (0, 0), velocity := (0, 0),
               prefVelocity := (0, 0), maxSpeed := st.sim.defaultMaxSpeed }] ++
            List.map (avatarEntry st) (List.filter (avatarGuard st) ks) = _
        rw [if_pos rfl]
        rw [List.map_cons, hentry]
        simp

theorem modifyAgents_append_last (f : OracleAgent → OracleAgent) :
    ∀ (l : List OracleAgent) (a : OracleAgent),
      modifyAgents f l.length (l ++ [a]) = l ++ [f a] := by
  intro l a
  induction l with
  | nil => rfl
  | cons b rest ih => simpa [modifyAgents] using ih

theorem filter_range_le (N : Nat) (hN : N ≤ 10) :
    (List.range' 1 10).filter (fun k => decide (k ≤ N)) = List.range' 1 N := by
  interval_cases N <;> rfl

theorem setupSimulation_spec (prims : FloatPrims) (st : ExperimentState) (N : Nat)
    (hN : N ≤ 10) (hsim : st.sim.agents = [])
    (hpart : st.participantData.positions ≠ [])
    (hguard : ∀ k, 1 ≤ k → k ≤ 10 → (avatarGuard st k = true ↔ k ≤ N)) :
    (setupSimulation prims st).avatarData = st.avatarData ∧
    (setupSimulation prims st).participantData = st.participantData ∧
    (setupSimulation prims st).maxSteps = st.maxSteps ∧
    (setupSimulation prims st).currentStep = st.currentStep ∧
    (setupSimulation prims st).sim.timeStep = st.sim.timeStep ∧
    (setupSimulation prims st).sim.defaultMaxSpeed = st.sim.defaultMaxSpeed ∧
    (setupSimulation prims st).sim.agents.length = N + 2 ∧
    positionOf (setupSimulation prims st).sim 0 =
      some (st.participantData.positions.headD (0, 0)) ∧
    maxSpeedOf (setupSimulation prims st).sim 0 = some st.sim.defaultMaxSpeed ∧
    (∀ k, 1 ≤ k → k ≤ N →
      ∃ traj, st.avatarData (mkKey k) = some traj ∧
        positionOf (setupSimulation prims st).sim k = some (traj.positions.headD (0, 0)) ∧
        maxSpeedOf (setupSimulation prims st).sim k = some st.sim.defaultMaxSpeed) ∧
    positionOf (setupSimulation prims st).sim (N + 1) =
      some (MIN_X, prims.sqrtf (9 * 9 + 11 * 11) + MIN_Y) ∧
    maxSpeedOf (setupSimulation prims st).sim (N + 1) = some 0 := by
  obtain ⟨g1, g2, g3, g4, g5, g6, g7⟩ :=
    setupAvatars_spec (List.range' 1 10)
      { st with sim := (addAgent st.sim (st.participantData.positions.headD (0, 0))).2 }
  rw [@avatarGuard_eq_of
    { st with sim := (addAgent st.sim (st.participantData.positions.headD (0, 0))).2 }
    st rfl] at g7
  rw [@avatarEntry_eq_of
    { st with sim := (addAgent st.sim (st.participantData.positions.headD (0, 0))).2 }
    st rfl rfl] at g7
  have hmem : ∀ k ∈ List.range' 1 10, avatarGuard st k = decide (k ≤ N) := by
    intro k hk
    rw [List.mem_range'_1] at hk
    have hiff := hguard k hk.1 (by omega)
    by_cases hkN : k ≤ N
    · simp [hkN, hiff.mpr hkN]
    · cases hg : avatarGuard st k with
      | false => simp [hkN]
      | true => exact absurd (hiff.mp hg) hkN
  have hfilt : List.filter (avatarGuard st) (List.range' 1 10) = List.range' 1 N :=
    (List.filter_congr hmem).trans (filter_range_le N hN)
  rw [hfilt] at g7
  have hst1agents :
      ({ st with sim := (addAgent st.sim (st.participantData.positions.headD (0, 0))).2 } :
        ExperimentState).sim.agents =
      [{ position := st.participantData.positions.headD (0, 0), velocity := (0, 0),
         prefVelocity := (0, 0), maxSpeed := st.sim.defaultMaxSpeed }] := by
    show (addAgent st.sim (st.participantData.positions.headD (0, 0))).2.agents = _
    rw [addAgent, hsim]
    rfl
  rw [hst1agents] at g7
  set gp : Vec2 := (MIN_X, prims.sqrtf (9 * 9 + 11 * 11) + MIN_Y) with hgp
  set st2 := setupAvatars (List.range' 1 10)
      { st with sim := (addAgent st.sim (st.participantData.positions.headD (0, 0))).2 }
    with hst2
  have hmain : setupSimulation prims st =
      { st2 with sim := setAgentMaxSpeed (addAgent st2.sim gp).2 (addAgent st2.sim gp).1 0 } := by
    simp only [setupSimulation]
    rw [if_pos hpart]
  have hlen2 : st2.sim.agents.length = N + 1 := by
    rw [g7]
    simp [List.length_map, List.length_range']
  have hagents : (setupSimulation prims st).sim.agents =
      { position := st.participantData.positions.headD (0, 0), velocity := (0, 0),
        prefVelocity := (0, 0), maxSpeed := st.sim.defaultMaxSpeed } ::
      ((List.range' 1 N).map (avatarEntry st) ++
       [{ position := gp, velocity := (0, 0),
          prefVelocity := (0, 0), maxSpeed := 0 }]) := by
    rw [hmain]
    show (setAgentMaxSpeed _ _ 0).agents = _
    rw [setAgentMaxSpeed]
    show modifyAgents _ st2.sim.agents.length ((addAgent st2.sim _).2.agents) = _
    rw [addAgent]
    show modifyAgents _ st2.sim.agents.length (st2.sim.agents ++ [_]) = _
    rw [show st2.sim.agents.length = (st2.sim.agents).length from rfl]
    rw [modifyAgents_append_last]
    rw [g7]
    simp
  have hdata1 : (setupSimulation prims st).avatarData = st.avatarData := by
    rw [hmain]; exact g1
  have hdata2 : (setupSimulation prims st).participantData = st.participantData := by
    rw [hmain]; exact g2
  have hdata3 : (setupSimulation prims st).maxSteps = st.maxSteps := by
    rw [hmain]; exact g3
  have hdata4 : (setupSimulation prims st).currentStep = st.currentStep := by
    rw [hmain]; exact g4
  have hdata5 : (setupSimulation prims st).sim.timeStep = st.sim.timeStep := by
    rw [hmain]; exact g5
  have hdata6 : (setupSimulation prims st).sim.defaultMaxSpeed = st.sim.defaultMaxSpeed := by
    rw [hmain]; exact g6
  refine ⟨hdata1, hdata2, hdata3, hdata4, hdata5, hdata6, ?_, ?_, ?_, ?_, ?_, ?_⟩
  · rw [hagents]
    simp [List.length_map, List.length_range']
  · rw [positionOf, List.get?_eq_getElem?, hagents]
    simp
  · rw [maxSpeedOf, List.get?_eq_getElem?, hagents]
    simp
  · intro k hk1 hkN
    have hg : avatarGuard st k = true := (hguard k hk1 (by omega)).mpr hkN
    obtain ⟨traj, htraj, hne⟩ := (avatarGuard_true_iff st k).mp hg
    obtain ⟨j, rfl⟩ : ∃ j, k = j + 1 := ⟨k - 1, by omega⟩
    have hjN : j < N := by omega
    have hmid : ((List.range' 1 N).map (avatarEntry st) ++
        [{ position := gp, velocity := (0, 0),
           prefVelocity := (0, 0), maxSpeed := (0 : ℚ) }])[j]? =
        some (avatarEntry st (j + 1)) := by
      rw [List.getElem?_append_left (by simpa [List.length_map, List.length_range'] using hjN)]
      rw [List.getElem?_map]
      rw [List.getElem?_range' _ _ hjN]
      simp [Nat.add_comm]
    refine ⟨traj, htraj, ?_, ?_⟩
    · rw [positionOf, List.get?_eq_getElem?, hagents, List.getElem?_cons_succ, hmid]
      simp [avatarEntry, htraj]
    · rw [maxSpeedOf, List.get?_eq_getElem?, hagents, List.getElem?_cons_succ, hmid]
      simp [avatarEntry]
  · rw [positionOf, List.get?_eq_getElem?, hagents, List.getElem?_cons_succ]
    rw [List.getElem?_append_right (by simp [List.length_map, List.length_range'])]
    simp [List.length_map, List.length_range']
  · rw [maxSpeedOf, List.get?_eq_getElem?, hagents, List.getElem?_cons_succ]
    rw [List.getElem?_append_right (by simp [List.length_map, List.length_range'])]
    simp [List.length_map, List.length_range']

/-! ### Facts about the generated sample data and the main scenario -/

theorem length_genParticipant (prims : FloatPrims) :
    (genParticipant prims).positions.length = 500 := by
  dsimp only [genParticipant]
  rw [List.length_map, List.length_range]

theorem length_genAvatarTraj (prims : FloatPrims) (k : Nat) :
    (genAvatarTraj prims k).positions.length = 500 := by
  dsimp only [genAvatarTraj]
  rw [List.length_map, List.length_range]

theorem generateSampleData_lookup (prims : FloatPrims) (st : ExperimentState) :
    ∀ k, 1 ≤ k → k ≤ 10 →
      (generateSampleData prims st).avatarData (mkKey k) = some (genAvatarTraj prims k) := by
  intro k h1 h2
  interval_cases k <;> rfl

theorem generateSampleData_maxSteps (prims : FloatPrims) (st : ExperimentState) :
    (generateSampleData prims st).maxSteps = 500 := rfl

theorem generateSampleData_participant (prims : FloatPrims) (st : ExperimentState) :
    (generateSampleData prims st).participantData = genParticipant prims := rfl

theorem generateSampleData_sim (prims : FloatPrims) (st : ExperimentState) :
    (generateSampleData prims st).sim = st.sim := rfl

theorem loaded_guard (prims : FloatPrims) :
    ∀ k, 1 ≤ k → k ≤ 10 →
      (avatarGuard (generateSampleData prims initialExperiment) k = true ↔ k ≤ 10) := by
  intro k h1 h2
  constructor
  · intro _
    exact h2
  · intro _
    rw [avatarGuard_true_iff]
    refine ⟨genAvatarTraj prims k, generateSampleData_lookup prims _ k h1 h2, ?_⟩
    have hlen := length_genAvatarTraj prims k
    intro hnil
    rw [hnil] at hlen
    simp at hlen

theorem scenarioState_facts (prims : FloatPrims) :
    (scenarioState prims).maxSteps = 500 ∧
    (scenarioState prims).participantData = genParticipant prims ∧
    (scenarioState prims).avatarData =
      (generateSampleData prims initialExperiment).avatarData ∧
    (scenarioState prims).sim.agents.length = 12 ∧
    (scenarioState prims).sim.timeStep = TIME_STEP ∧
    positionOf (scenarioState prims).sim 0 =
      some ((genParticipant prims).positions.headD (0, 0)) ∧
    maxSpeedOf (scenarioState prims).sim 0 = some MAX_SPEED ∧
    maxSpeedOf (scenarioState prims).sim 11 = some 0 ∧
    StandardConfig (scenarioState prims) := by
  have hpart : (generateSampleData prims initialExperiment).participantData.positions ≠ [] := by
    rw [generateSampleData_participant]
    apply List.ne_nil_of_length_pos
    rw [length_genParticipant]
    omega
  obtain ⟨s1, s2, s3, s4, s5, s6, s7, s8, s9, s10, s11, s12⟩ :=
    setupSimulation_spec prims (generateSampleData prims initialExperiment) 10
      (by omega) rfl hpart (loaded_guard prims)
  have hmax : (scenarioState prims).maxSteps = 500 := by
    show (setupSimulation prims (generateSampleData prims initialExperiment)).maxSteps = 500
    rw [s3]
    rfl
  have hpd : (scenarioState prims).participantData = genParticipant prims := by
    show (setupSimulation prims (generateSampleData prims initialExperiment)).participantData = _
    rw [s2]
    rfl
  have had : (scenarioState prims).avatarData =
      (generateSampleData prims initialExperiment).avatarData := s1
  refine ⟨hmax, hpd, had, s7, ?_, ?_, ?_, s12, ?_, ?_, ?_⟩
  · show (setupSimulation prims (generateSampleData prims initialExperiment)).sim.timeStep = _
    rw [s5]
    rfl
  · show positionOf (setupSimulation prims (generateSampleData prims initialExperiment)).sim 0 = _
    rw [s8, generateSampleData_participant]
  · show maxSpeedOf (setupSimulation prims (generateSampleData prims initialExperiment)).sim 0 = _
    rw [s9]
    rfl
  · exact s7
  · rw [hpd, length_genParticipant]
    omega
  · intro k h1 h2
    refine ⟨genAvatarTraj prims k, ?_, ?_⟩
    · rw [had]
      exact generateSampleData_lookup prims initialExperiment k h1 h2
    · rw [length_genAvatarTraj]
      omega

/-! ### Claim theorems -/

/-- The length-0 trajectory. -/
def emptyTraj : AgentTrajectory := { positions := [], speeds := [], headings := [] }

/-- A concrete two-sample trajectory used by witnesses. -/
def exTraj : AgentTrajectory :=
  { positions := [(0, 0), (2, 3)], speeds := [], headings := [] }

/-- A trivial avoidance resolver used by witnesses. -/
def resolve0 : Resolver := fun _ _ => (0, 0)

/-- C1 counterexample: on the empty trajectory at tick 0 (which satisfies
i ≥ length(T) - 1), the estimator does not return the zero vector: the
size_t guard underflows, the function falls through, and the out-of-bounds
vector read occurs (modelled as none). -/
theorem C1_counterexample_empty_trajectory :
    0 ≥ emptyTraj.positions.length - 1 ∧
    calculatePreferredVelocity 0 0 emptyTraj ≠ some (0, 0) ∧
    calculatePreferredVelocity 0 0 emptyTraj = none := by
  refine ⟨by decide, by decide, by decide⟩

/-- C1 (amended): for every trajectory holding at least one and fewer than
2^64 samples, the estimator returns the finite difference
(positions[i+1] - positions[i]) / dt for every tick i with i + 1 < length,
and the zero vector for every tick i ≥ length - 1.  The original claim,
quantified over all trajectories, fails on the empty trajectory, where the
size_t guard underflows and the code reads the vector out of bounds. -/
theorem C1_estimator_formula_amended (traj : AgentTrajectory) (a i : Nat)
    (h1 : 1 ≤ traj.positions.length) (hU : traj.positions.length < U64) :
    (∀ p q, i + 1 < traj.positions.length →
      traj.positions[i]? = some p → traj.positions[i + 1]? = some q →
      calculatePreferredVelocity i a traj = some (vdiv (q - p) TIME_STEP)) ∧
    (traj.positions.length - 1 ≤ i →
      calculatePreferredVelocity i a traj = some (0, 0)) := by
  constructor
  · intro p q hlt hp hq
    exact calculatePreferredVelocity_formula i a traj hU hlt p q hp hq
  · intro hge
    exact calculatePreferredVelocity_exhausted i a traj h1 hge

/-- Witness for C1 at the concrete two-sample trajectory. -/
theorem C1_witness :
    calculatePreferredVelocity 0 0 exTraj = some (vdiv ((2, 3) - (0, 0)) TIME_STEP) ∧
    calculatePreferredVelocity 5 0 exTraj = some (0, 0) :=
  ⟨(C1_estimator_formula_amended exTraj 0 0 (by decide) (by show 2 < U64; decide)).1
      (0, 0) (2, 3) (by decide) (by decide) (by decide),
   (C1_estimator_formula_amended exTraj 0 5 (by decide) (by show 2 < U64; decide)).2 (by decide)⟩

/-- C2 (code-bug evaluation): on a length-0 trajectory the C++ guard
currentStep >= positions.size() - 1 underflows in size_t arithmetic
(0 - 1 wraps to 2^64 - 1), so the guard never fires and the function
reads positions[0] and positions[1] out of bounds (none in the model),
instead of returning the zero vector as the spec states; on a length-1
trajectory the guard always fires and the zero vector is returned. -/
theorem C2_empty_trajectory_out_of_bounds :
    calculatePreferredVelocity 0 0 emptyTraj = none ∧
    (∀ i a p, calculatePreferredVelocity i a
      { positions := [p], speeds := [], headings := [] } = some (0, 0)) := by
  refine ⟨by decide, ?_⟩
  intro i a p
  exact calculatePreferredVelocity_exhausted i a _ (by simp) (by simp)

/-- C5 counterexample: with setup never called, the freshly constructed
state still has maxSteps = 0, so runSimulation returns normally with zero
oracle advances and zero records, and updateAgentPositions is a no-op;
nothing fails or aborts, and no NotInitialized error exists in the code. -/
theorem C5_counterexample_run_without_setup :
    runSimulation resolve0 initialExperiment = some (initialExperiment, [], 0) ∧
    updateAgentPositions initialExperiment = some initialExperiment :=
  ⟨rfl, rfl⟩

/-- C5 (amended): the code defines no NotInitialized error.  Invoking the
run operation before setup executes zero loop iterations (maxSteps is
still 0) and completes normally with no records and no oracle advances,
and invoking the tick update before setup leaves the state unchanged;
neither operation fails or aborts. -/
theorem C5_run_without_setup_amended (resolve : Resolver) :
    runSimulation resolve initialExperiment = some (initialExperiment, [], 0) ∧
    updateAgentPositions initialExperiment = some initialExperiment :=
  ⟨rfl, rfl⟩

/-- C6: from any state carrying the full twelve-agent roster, runSimulation
completes and performs exactly maxSteps oracle advances - the loop is
strictly bounded by the tick budget, with no early exit or convergence
condition - regardless of whether any trajectory is shorter than the
budget. -/
theorem C6_advance_count (resolve : Resolver) (st : ExperimentState)
    (h12 : st.sim.agents.length = 12) :
    ∃ stF recs, runSimulation resolve st = some (stF, recs, st.maxSteps) := by
  obtain ⟨stF, recs, h, _⟩ := runFrom_total resolve st.maxSteps 0 st
  exact ⟨stF, recs, h⟩

/-- A one-sample trajectory used by the run witnesses. -/
def trajW : AgentTrajectory := { positions := [(0, 0)], speeds := [], headings := [] }

/-- A default moving agent used by the run witnesses. -/
def agentW : OracleAgent :=
  { position := (0, 0), velocity := (0, 0), prefVelocity := (0, 0), maxSpeed := 2 }

/-- A goal agent (zero maximum speed) used by the run witnesses. -/
def goalW : OracleAgent := { agentW with maxSpeed := 0 }

/-- Avatar data with keys A1P .. A10P, used by the run witnesses. -/
def mapW : TrajMap :=
  (List.range' 1 10).foldl (fun m k => mapInsert m (mkKey k) trajW) (fun _ => none)

/-- A concrete twelve-agent state with a one-tick budget, used by the run
witnesses. -/
def stW : ExperimentState :=
  { sim := { timeStep := TIME_STEP, defaultMaxSpeed := 2,
             agents := List.replicate 11 agentW ++ [goalW] }
    avatarData := mapW
    participantData := trajW
    currentStep := 0
    maxSteps := 1
    subject := 10
    trial := 76 }

/-- Witness for C6: the one-tick twelve-agent state performs exactly one
advance. -/
theorem C6_witness :
    (runSimulation resolve0 stW).map (fun out => out.2.2) = some 1 := by
  obtain ⟨stF, recs, h⟩ := C6_advance_count resolve0 stW (by decide)
  rw [h]
  rfl

/-- C9: loadTrajectoryData returns true for every data-path argument and
its result does not depend on that argument - it always generates the
synthetic sample data - so the degraded-mode warning branch of main is
unreachable. -/
theorem C9_load_always_true (prims : FloatPrims) (p q : String) (st : ExperimentState) :
    (loadTrajectoryData prims p st).1 = true ∧
    loadTrajectoryData prims p st = (true, generateSampleData prims st) ∧
    loadTrajectoryData prims p st = loadTrajectoryData prims q st ∧
    mainWarnsDegraded prims p st = false :=
  ⟨rfl, rfl, rfl, rfl⟩

/-- C10: after synthetic generation the tick budget is 500 and the
participant trajectory and each of the ten avatar trajectories contain
exactly 500 = maxSteps samples, so every bound trajectory has the same
length as the tick budget and none is exhausted before the final tick. -/
theorem C10_generated_lengths (prims : FloatPrims) (st : ExperimentState) :
    (generateSampleData prims st).maxSteps = 500 ∧
    (generateSampleData prims st).participantData.positions.length =
      (generateSampleData prims st).maxSteps ∧
    (∀ k, 1 ≤ k → k ≤ 10 →
      ∃ traj, (generateSampleData prims st).avatarData (mkKey k) = some traj ∧
        traj.positions.length = (generateSampleData prims st).maxSteps) := by
  refine ⟨rfl, ?_, ?_⟩
  · rw [generateSampleData_participant, generateSampleData_maxSteps, length_genParticipant]
  · intro k h1 h2
    exact ⟨genAvatarTraj prims k, generateSampleData_lookup prims st k h1 h2,
      by rw [generateSampleData_maxSteps, length_genAvatarTraj]⟩

/-- Every trajectory bound to a moving handle of a standard configuration
is nonempty. -/
theorem standardConfig_traj_len {st : ExperimentState} {k : Nat} {traj : AgentTrajectory}
    (H : StandardConfig st) (hk : k ≤ 10) (htraj : trajFor st k = some traj) :
    1 ≤ traj.positions.length := by
  obtain ⟨h12, hplen, hav⟩ := H
  rcases Nat.eq_zero_or_pos k with rfl | hkpos
  · simp only [trajFor, if_pos rfl] at htraj
    injection htraj with e
    rw [← e]
    exact hplen
  · obtain ⟨traj', ht', hl'⟩ := hav k hkpos hk
    rw [trajFor, if_neg (Nat.pos_iff_ne_zero.mp hkpos)] at htraj
    rw [htraj] at ht'
    injection ht' with e
    rw [e]
    exact hl'

/-- C3: after setup from a fresh configured oracle with a nonempty
participant trajectory and avatar keys present-and-nonempty exactly for
ordinals 1..N (N ≤ 10), handles 0..N belong to the moving agents in the
order (participant, avatar 1, ..., avatar N), each registered at its
trajectory's tick-0 position with the configured default maximum speed,
and handle N+1 is the goal agent the code registers (the code always
registers exactly one goal, G = 1), with its maximum speed set to 0. -/
theorem C3_registration_order (prims : FloatPrims) (st : ExperimentState) (N : Nat)
    (hN : N ≤ 10) (hsim : st.sim.agents = [])
    (hpart : st.participantData.positions ≠ [])
    (hguard : ∀ k, 1 ≤ k → k ≤ 10 → (avatarGuard st k = true ↔ k ≤ N)) :
    (setupSimulation prims st).sim.agents.length = N + 2 ∧
    positionOf (setupSimulation prims st).sim 0 =
      some (st.participantData.positions.headD (0, 0)) ∧
    maxSpeedOf (setupSimulation prims st).sim 0 = some st.sim.defaultMaxSpeed ∧
    (∀ k, 1 ≤ k → k ≤ N →
      ∃ traj, st.avatarData (mkKey k) = some traj ∧
        positionOf (setupSimulation prims st).sim k = some (traj.positions.headD (0, 0)) ∧
        maxSpeedOf (setupSimulation prims st).sim k = some st.sim.defaultMaxSpeed) ∧
    positionOf (setupSimulation prims st).sim (N + 1) =
      some (MIN_X, prims.sqrtf (9 * 9 + 11 * 11) + MIN_Y) ∧
    maxSpeedOf (setupSimulation prims st).sim (N + 1) = some 0 := by
  obtain ⟨s1, s2, s3, s4, s5, s6, s7, s8, s9, s10, s11, s12⟩ :=
    setupSimulation_spec prims st N hN hsim hpart hguard
  exact ⟨s7, s8, s9, s10, s11, s12⟩

/-- Concrete float primitives for witnesses (their values are irrelevant). -/
def primsW : FloatPrims := { sinf := fun _ => 0, sqrtf := fun _ => 0, pi2 := 0 }

/-- A one-participant, one-avatar state for the C3 witness. -/
def stC3 : ExperimentState :=
  { sim := initialOracle
    avatarData := mapInsert (fun _ => none) "A1P"
      { positions := [(3, 4)], speeds := [], headings := [] }
    participantData := { positions := [(1, 2)], speeds := [], headings := [] }
    currentStep := 0
    maxSteps := 0
    subject := 10
    trial := 76 }

/-- Witness for C3 with one avatar: setup registers 1 + 1 + 1 agents. -/
theorem C3_witness : (setupSimulation primsW stC3).sim.agents.length = 1 + 2 :=
  (C3_registration_order primsW stC3 1 (by omega) rfl (by decide)
    (by intro k h1 h2; interval_cases k <;> decide)).1

/-- C4: at every tick t of the run loop of a standard twelve-agent
configuration, the oracle advance for tick t is applied exactly to the
updated state stU in which every trajectory-driven agent's preferred
velocity equals the estimator value at tick t - in particular the zero
vector from the tick its trajectory is exhausted onward - and the goal
handle's preferred velocity equals the zero vector. -/
theorem C4_prefvel_set_before_advance (resolve : Resolver) (st : ExperimentState)
    (H : StandardConfig st) :
    ∀ t, t < st.maxSteps →
      ∃ stB stU, stateAt resolve st t = some stB ∧
        updateAgentPositions { stB with currentStep := t } = some stU ∧
        stateAt resolve st (t + 1) = some { stU with sim := doStep resolve stU.sim } ∧
        (∀ k, k ≤ 10 → ∀ traj, trajFor st k = some traj →
          ∃ v, calculatePreferredVelocity t k traj = some v ∧
            prefVelOf stU.sim k = some v) ∧
        prefVelOf stU.sim 11 = some (0, 0) ∧
        (∀ k, k ≤ 10 → ∀ traj, trajFor st k = some traj →
          traj.positions.length ≤ t → prefVelOf stU.sim k = some (0, 0)) := by
  intro t ht
  obtain ⟨stB, hB, c1, c2, c3, c4, c5, c6, c7⟩ := stateAt_spec resolve st H t (by omega)
  obtain ⟨stU, u1, u2, u3, u4, u5, u6, u7, u8⟩ :=
    updateAgentPositions_spec { stB with currentStep := t }
      (by show t < stB.maxSteps; omega)
      (by show 1 ≤ stB.participantData.positions.length; rw [c2]; exact H.2.1)
      (by show 11 < stB.sim.agents.length; omega)
  have htrans : ∀ k, k ≤ 10 → ∀ traj, trajFor st k = some traj →
      trajFor { stB with currentStep := t } k = some traj := by
    intro k hk traj htraj
    rcases Nat.eq_zero_or_pos k with rfl | hkpos
    · simp only [trajFor, if_pos rfl] at htraj ⊢
      show some stB.participantData = some traj
      rw [c2]
      exact htraj
    · simp only [trajFor, if_neg (Nat.pos_iff_ne_zero.mp hkpos)] at htraj ⊢
      show stB.avatarData (mkKey k) = some traj
      rw [c1]
      exact htraj
  refine ⟨stB, stU, hB, u1, by simp [stateAt, hB, tickOnce, u1], ?_, u7, ?_⟩
  · intro k hk traj htraj
    obtain ⟨b1, b2⟩ := u8 k hk traj (htrans k hk traj htraj)
    by_cases hcase : traj.positions.length ≤ t
    · have hv0 : calculatePreferredVelocity t k traj = some (0, 0) :=
        calculatePreferredVelocity_exhausted t k traj
          (standardConfig_traj_len H hk htraj) (by omega)
      refine ⟨(0, 0), hv0, ?_⟩
      have hb2 : prefVelOf stU.sim k = prefVelOf stB.sim k := b2 hcase
      rw [hb2]
      exact c7 k hk traj htraj hcase
    · obtain ⟨v, hv, hpv⟩ := b1 (by show t < traj.positions.length; omega)
      exact ⟨v, hv, hpv⟩
  · intro k hk traj htraj hle
    obtain ⟨b1, b2⟩ := u8 k hk traj (htrans k hk traj htraj)
    have hb2 : prefVelOf stU.sim k = prefVelOf stB.sim k := b2 hle
    rw [hb2]
    exact c7 k hk traj htraj hle

/-- The twelve-agent witness configuration satisfies StandardConfig. -/
theorem stW_config : StandardConfig stW := by
  refine ⟨by decide, by decide, ?_⟩
  intro k h1 h2
  interval_cases k <;> exact ⟨trajW, rfl, by decide⟩

/-- Witness for C4 at tick 0 of the one-tick twelve-agent state: the goal
handle's preferred velocity before the advance is the zero vector. -/
theorem C4_witness :
    ((stateAt resolve0 stW 0).bind fun stB =>
      (updateAgentPositions { stB with currentStep := 0 }).bind fun stU =>
        prefVelOf stU.sim 11) = some (0, 0) := by
  obtain ⟨stB, stU, h1, h2, h3, h4, h5, h6⟩ :=
    C4_prefvel_set_before_advance resolve0 stW stW_config 0 (by decide)
  simp [h1, h2, h5]

/-- C8: in a standard twelve-agent configuration whose handle 11 has
maximum speed 0 (the goal agent), the goal is never given a non-zero
preferred velocity - before every advance its stored preferred velocity is
the zero vector - and every emitted record for handle 11 carries the zero
velocity. -/
theorem C8_goal_agent_zero_velocity (resolve : Resolver) (st : ExperimentState)
    (H : StandardConfig st) (hms : maxSpeedOf st.sim 11 = some 0) :
    (∀ t, t < st.maxSteps →
      ∃ stB stU, stateAt resolve st t = some stB ∧
        updateAgentPositions { stB with currentStep := t } = some stU ∧
        prefVelOf stU.sim 11 = some (0, 0)) ∧
    ∃ stF recs, runSimulation resolve st = some (stF, recs, st.maxSteps) ∧
      ∀ r ∈ recs, r.agentId = 11 → r.velocity = (0, 0) := by
  constructor
  · intro t ht
    obtain ⟨stB, hB, c1, c2, c3, c4, c5, c6, c7⟩ := stateAt_spec resolve st H t (by omega)
    obtain ⟨stU, u1, u2, u3, u4, u5, u6, u7, u8⟩ :=
      updateAgentPositions_spec { stB with currentStep := t }
        (by show t < stB.maxSteps; omega)
        (by show 1 ≤ stB.participantData.positions.length; rw [c2]; exact H.2.1)
        (by show 11 < stB.sim.agents.length; omega)
    exact ⟨stB, stU, hB, u1, u7⟩
  · obtain ⟨stF, recs, h, b2, b3, b4, b5, b6, b7, b8⟩ :=
      runFrom_total resolve st.maxSteps 0 st
    refine ⟨stF, recs, h, ?_⟩
    intro r hr h11
    obtain ⟨_, _, c3⟩ := b8 r hr
    exact c3 (by rw [h11]; exact hms)

/-- A two-tick variant of the witness state. -/
def stW2 : ExperimentState := { stW with maxSteps := 2 }

/-- Witness for C8 at tick 1 of the two-tick twelve-agent state. -/
theorem C8_witness :
    ((stateAt resolve0 stW2 1).bind fun stB =>
      (updateAgentPositions { stB with currentStep := 1 }).bind fun stU =>
        prefVelOf stU.sim 11) = some (0, 0) := by
  obtain ⟨hfirst, _⟩ :=
    C8_goal_agent_zero_velocity resolve0 stW2 stW_config (by decide)
  obtain ⟨stB, stU, h1, h2, h3⟩ := hfirst 1 (by decide)
  simp [h1, h2, h3]

/-- C7 (amended): in the synthetic run (dt = 1/90, maxSteps = 500,
sampling every 10 ticks, twelve registered agents), the run performs
exactly 500 advances and emits exactly 50 = ceil(500/10) sampled ticks
with one row per registered agent (50 * 12 rows); however the rows of a
sampled tick are emitted after that tick's oracle advance, so the first
row - step 0, participant handle 0 - carries the participant trajectory's
sample 0 advanced by one time step with the tick-0 resolved velocity,
not sample 0 itself. -/
theorem C7_scenario_amended (prims : FloatPrims) (resolve : Resolver) :
    ∃ stU stF recs,
      updateAgentPositions { scenarioState prims with currentStep := 0 } = some stU ∧
      runSimulation resolve (scenarioState prims) = some (stF, recs, 500) ∧
      recs.length = 50 * 12 ∧
      recs.head? = some
        { step := 0, agentId := 0,
          position := (genParticipant prims).positions.headD (0, 0) +
            vscale (resolve stU.sim 0) TIME_STEP,
          velocity := resolve stU.sim 0 } := by
  obtain ⟨f1, f2, f3, f4, f5, f6, f7, f8, f9⟩ := scenarioState_facts prims
  obtain ⟨stU, u1, u2, u3, u4, u5, u6, u7, u8⟩ :=
    updateAgentPositions_spec { scenarioState prims with currentStep := 0 }
      (by show 0 < (scenarioState prims).maxSteps; rw [f1]; omega)
      (by show 1 ≤ (scenarioState prims).participantData.positions.length
          rw [f2, length_genParticipant]; omega)
      (by show 11 < (scenarioState prims).sim.agents.length; rw [f4]; omega)
  have htick : tickOnce resolve 0 (scenarioState prims) =
      some ({ stU with sim := doStep resolve stU.sim },
            emitRecords 0 (doStep resolve stU.sim)) := by
    simp only [tickOnce, u1, Option.bind_eq_bind, Option.some_bind]
    rfl
  obtain ⟨stF, rest, hrest, r2, r3, r4, r5, r6, r7, r8⟩ :=
    runFrom_total resolve 499 1 { stU with sim := doStep resolve stU.sim }
  have hrun : runSimulation resolve (scenarioState prims) =
      some (stF, emitRecords 0 (doStep resolve stU.sim) ++ rest, 500) := by
    rw [runSimulation, f1]
    rw [show (500 : Nat) = 499 + 1 from rfl]
    rw [runFrom]
    rw [htick]
    simp only [Option.bind_eq_bind, Option.some_bind, Nat.zero_add]
    rw [hrest]
    rfl
  have hlenU : stU.sim.agents.length = 12 := u6.2.2.1.trans f4
  have hlenD : (doStep resolve stU.sim).agents.length = 12 := by
    rw [length_doStep]; exact hlenU
  have hem : (emitRecords 0 (doStep resolve stU.sim)).length = 12 := by
    rw [emitRecords, length_emitAgents]; exact hlenD
  have hcount : countSampled 1 499 = 49 := by decide
  have hlen : (emitRecords 0 (doStep resolve stU.sim) ++ rest).length = 50 * 12 := by
    rw [List.length_append, hem, r7, hcount]
    show 12 + 49 * ({ stU with sim := doStep resolve stU.sim } :
      ExperimentState).sim.agents.length = 50 * 12
    show 12 + 49 * (doStep resolve stU.sim).agents.length = 50 * 12
    rw [hlenD]
  obtain ⟨a0, ha0⟩ : ∃ a0, stU.sim.agents[0]? = some a0 :=
    ⟨_, List.getElem?_eq_getElem (by omega)⟩
  have hpos0 : a0.position = (genParticipant prims).positions.headD (0, 0) := by
    have h2 : positionOf stU.sim 0 =
        some ((genParticipant prims).positions.headD (0, 0)) :=
      (u6.2.2.2.2.1 0).trans f6
    rw [positionOf, List.get?_eq_getElem?, ha0] at h2
    simpa using h2
  have hms0 : a0.maxSpeed = MAX_SPEED := by
    have h2 : maxSpeedOf stU.sim 0 = some MAX_SPEED := (u6.2.2.2.1 0).trans f7
    rw [maxSpeedOf, List.get?_eq_getElem?, ha0] at h2
    simpa using h2
  have htime : stU.sim.timeStep = TIME_STEP := u6.1.trans f5
  have hhead : (emitRecords 0 (doStep resolve stU.sim)).head? = some
      { step := 0, agentId := 0,
        position := (genParticipant prims).positions.headD (0, 0) +
          vscale (resolve stU.sim 0) TIME_STEP,
        velocity := resolve stU.sim 0 } := by
    rw [emitRecords, List.head?_eq_getElem?, getElem?_emitAgents]
    show ((stepAgents resolve stU.sim 0 stU.sim.agents)[0]?.map _) = _
    rw [getElem?_stepAgents, ha0]
    have hnz : ¬ a0.maxSpeed = 0 := by
      rw [hms0, MAX_SPEED]
      norm_num
    have hv : stepAgent stU.sim (0 + 0) resolve a0 =
        { a0 with
          velocity := resolve stU.sim 0
          position := a0.position + vscale (resolve stU.sim 0) stU.sim.timeStep } := by
      simp only [stepAgent, if_neg hnz]
    simp only [Option.map_some']
    rw [hv]
    dsimp only
    rw [hpos0, htime]
  exact ⟨stU, stF, emitRecords 0 (doStep resolve stU.sim) ++ rest, u1, hrun, hlen, by
    rw [List.head?_append, hhead]
    rfl⟩

/-- An RVO-like avoidance resolver that realizes each agent's stored
preferred velocity unchanged (free motion, no obstruction). -/
def resolvePref : Resolver :=
  fun o i => ((o.agents.get? i).map (·.prefVelocity)).getD (0, 0)

unseal Rat.mul Rat.add Rat.sub Rat.inv Rat.ofScientific in
/-- C7 counterexample: in the synthetic run (concrete primitives, the
free-motion resolver), the emitted row with step 0 for the participant
(handle 0, the head of the output) has position (15, 509/50) - the
trajectory's sample 1, because rows are logged after the tick's advance -
whereas the participant trajectory's sample 0 is (15, 10). -/
theorem C7_counterexample_first_row_position :
    ((runSimulation resolvePref (scenarioState primsW)).bind fun out =>
      out.2.1.head?.map fun r => (r.step, r.agentId, r.position)) =
      some (0, 0, ((15 : ℚ), (509 : ℚ) / 50)) ∧
    (scenarioState primsW).participantData.positions.headD (0, 0) =
      ((15 : ℚ), (10 : ℚ)) ∧
    (((15 : ℚ), (509 : ℚ) / 50) : Vec2) ≠ ((15 : ℚ), (10 : ℚ)) := by
  refine ⟨?_, by decide, by decide⟩
  obtain ⟨st2, recs0, hp, a2, a3, a4, a5, a6, a7, a8, a9, a10⟩ :=
    tickOnce_total resolvePref 0 (scenarioState primsW)
  have hhead : (tickOnce resolvePref 0 (scenarioState primsW)).bind
      (fun p => p.2.head?.map fun r => (r.step, r.agentId, r.position)) =
      some (0, 0, ((15 : ℚ), (509 : ℚ) / 50)) := by decide
  rw [hp] at hhead
  simp only [Option.bind_eq_bind, Option.some_bind] at hhead
  obtain ⟨r, hr, hfr⟩ := Option.map_eq_some'.mp hhead
  obtain ⟨stF, rest, hrest, b2, b3, b4, b5, b6, b7, b8⟩ :=
    runFrom_total resolvePref 499 1 st2
  have hms : (scenarioState primsW).maxSteps = 500 := (scenarioState_facts primsW).1
  have hrun : runSimulation resolvePref (scenarioState primsW) =
      some (stF, recs0 ++ rest, 500) := by
    rw [runSimulation, hms]
    rw [show (500 : Nat) = 499 + 1 from rfl]
    rw [runFrom]
    rw [hp]
    simp only [Option.bind_eq_bind, Option.some_bind, Nat.zero_add]
    rw [hrest]
    rfl
  rw [hrun]
  simp only [Option.bind_eq_bind, Option.some_bind]
  rw [List.head?_append, hr]
  simp [hfr]

end RVOSim
